import Mathlib

/-!
Shallow embedding of `custom_components/openai_compatible_conversation/memobase_client.py`
(`MemobaseManager`): a manager that lazily connects to a remote memory service,
stores conversation exchanges, fetches a user-profile summary with retries, and
flushes the remote buffer.

The remote `AsyncMemobaseClient` (and the remote user handle obtained from it)
is modelled as an oracle structure `Remote` of `Except`-valued functions: an
`Except.error` value models a Python call that raises, `Except.ok` a call that
returns.  The `context` oracle is additionally indexed by the attempt number so
that retries can observe different outcomes on different attempts.

Each manager operation is a pure function taking the oracle and the current
manager state and returning its result, the new state, and a trace of events
(remote calls, log records at each severity, and sleeps), exactly in the order
the Python code performs them.  Cooperative-async execution with the connect
lock serializes concurrent callers, so a round of N concurrent callers is
modelled as N sequential `connect` calls on the shared state (`connectN`).
-/

namespace Memobase

/-- Opaque reference to the remote user object (`self.user` in the source). -/
abbrev UserHandle := String

/-- One entry of the exchange record passed to `ChatBlob(messages=...)`:
a dict with keys `role`, `content`, and (for the assistant turn) `alias`. -/
structure Message where
  role : String
  content : String
  «alias» : Option String
deriving DecidableEq, Repr

/-- Trace events: remote calls made by the manager, log records, and sleeps. -/
inductive Event where
  | ping : Event
  | get_user : String → Event
  | add_user : Event
  | insert : List Message → Event
  | contextCall : Nat → Event
  | flush : Event
  | sleep : Nat → Event
  | logError : Event
  | logWarning : Event
  | logInfo : Event
  | logDebug : Event
deriving DecidableEq, Repr

/-- Oracle for the remote Memobase client and the remote user handle.
`Except.error e` models a call that raises exception `e`.
`context` takes the attempt index first, so consecutive retry attempts may
observe different outcomes. -/
structure Remote where
  ping : Except String Bool
  get_user : String → Except String UserHandle
  add_user : Except String String
  insert : UserHandle → List Message → Except String Unit
  context : UserHandle → Nat → Nat → Option (List String) → Except String String
  flush : UserHandle → Except String Unit

/-- State of a `MemobaseManager` (the `hass` and `client` fields carry no
manager-local state; the client's behaviour is the `Remote` oracle). -/
structure MemobaseManager where
  user : Option UserHandle
  user_id : Option String
  _connected : Bool
deriving DecidableEq, Repr

/-- `MemobaseManager.__init__`: `self.user = None`, `self.user_id = user_id`,
`self._connected = False`. -/
def MemobaseManager.init (user_id : Option String) : MemobaseManager :=
  { user := none, user_id := user_id, _connected := false }

/-- Python truthiness of `self.user_id` in `if self.user_id:`:
`None` and the empty string are falsy. -/
def truthyId : Option String → Bool
  | none => false
  | some s => s != ""

/-- Body of `connect` after the lock is acquired and the connected flag has
been re-checked (the double-checked pattern): ping, then resolve or create the
user, mutating `self.user_id` / `self.user` in source order; any exception is
caught by the outer handler, which logs an error and returns `False`. -/
def connectLocked (r : Remote) (m : MemobaseManager) :
    Bool × MemobaseManager × List Event :=
  if m._connected then
    (true, m, [])
  else
    match r.ping with
    | .error _ => (false, m, [Event.ping, Event.logError])
    | .ok false => (false, m, [Event.ping, Event.logError])
    | .ok true =>
      if truthyId m.user_id then
        let uid := m.user_id.getD ""
        match r.get_user uid with
        | .ok u =>
          (true, { m with user := some u, _connected := true },
            [Event.ping, Event.get_user uid, Event.logInfo])
        | .error _ =>
          match r.add_user with
          | .error _ =>
            (false, m,
              [Event.ping, Event.get_user uid, Event.logWarning,
                Event.add_user, Event.logError])
          | .ok nid =>
            match r.get_user nid with
            | .error _ =>
              (false, { m with user_id := some nid },
                [Event.ping, Event.get_user uid, Event.logWarning,
                  Event.add_user, Event.get_user nid, Event.logError])
            | .ok u =>
              (true,
                { m with user_id := some nid, user := some u, _connected := true },
                [Event.ping, Event.get_user uid, Event.logWarning,
                  Event.add_user, Event.get_user nid, Event.logInfo])
      else
        match r.add_user with
        | .error _ =>
          (false, m, [Event.ping, Event.add_user, Event.logError])
        | .ok nid =>
          match r.get_user nid with
          | .error _ =>
            (false, { m with user_id := some nid },
              [Event.ping, Event.add_user, Event.get_user nid, Event.logError])
          | .ok u =>
            (true,
              { m with user_id := some nid, user := some u, _connected := true },
              [Event.ping, Event.add_user, Event.get_user nid, Event.logInfo])

/-- `MemobaseManager.connect`: early-return `True` if already connected,
otherwise take the lock and run the guarded connect sequence. -/
def connect (r : Remote) (m : MemobaseManager) :
    Bool × MemobaseManager × List Event :=
  if m._connected then (true, m, [])
  else connectLocked r m

/-- The two-entry `messages` list built by `store_conversation`. -/
def exchangeMessages (user_message assistant_response assistant_name : String) :
    List Message :=
  [ { role := "user", content := user_message, «alias» := none },
    { role := "assistant", content := assistant_response,
      «alias» := some assistant_name } ]

/-- The `try: await self.user.insert(ChatBlob(messages=messages)) ...` part of
`store_conversation`.  If `self.user` is `None` the attribute access raises,
and the handler logs an error and returns `False`. -/
def insertStep (r : Remote) (m : MemobaseManager) (msgs : List Message) :
    Bool × List Event :=
  match m.user with
  | none => (false, [Event.logError])
  | some u =>
    match r.insert u msgs with
    | .ok _ => (true, [Event.insert msgs, Event.logDebug])
    | .error _ => (false, [Event.insert msgs, Event.logError])

/-- `MemobaseManager.store_conversation`: ensure connection (short-circuit:
`connect` is only called when not connected), build the exchange record, then
try to insert it. -/
def store_conversation (r : Remote) (m : MemobaseManager)
    (user_message assistant_response assistant_name : String) :
    Bool × MemobaseManager × List Event :=
  if m._connected then
    let (ok, evs) :=
      insertStep r m (exchangeMessages user_message assistant_response assistant_name)
    (ok, m, evs)
  else
    match connect r m with
    | (false, m1, evs) => (false, m1, evs)
    | (true, m1, evs) =>
      let (ok, evs2) :=
        insertStep r m1 (exchangeMessages user_message assistant_response assistant_name)
      (ok, m1, evs ++ evs2)

/-- One attempt of the retry loop body: `await self.user.context(...)`.
If `self.user` is `None` the attribute access raises before any remote call,
so no call event is recorded; otherwise the oracle is consulted at the current
attempt index. -/
def tryContext (r : Remote) (user : Option UserHandle) (attempt mt : Nat)
    (pt : Option (List String)) : Except String String × List Event :=
  match user with
  | none => (Except.error "NoneType has no attribute context", [])
  | some u => (r.context u attempt mt pt, [Event.contextCall mt])

/-- The `while retry_count < max_retries:` loop of `get_user_profile`.
On exception: increment the counter, log a warning, return `""` once the bound
is reached, otherwise sleep 1 and loop.  Fuel makes the recursion structural;
`get_user_profile` supplies `max_retries` fuel, which is enough since each
iteration increments `retry_count`.  Falling out of the loop (fuel exhausted or
counter at bound on entry) models the Python function returning `None`. -/
def profileLoop (r : Remote) (user : Option UserHandle) (mt : Nat)
    (pt : Option (List String)) (max_retries : Nat) :
    Nat → Nat → Option String × List Event
  | _, 0 => (none, [])
  | retry_count, fuel + 1 =>
    if retry_count < max_retries then
      match tryContext r user retry_count mt pt with
      | (.ok s, evs) => (some s, evs)
      | (.error _, evs) =>
        let rc := retry_count + 1
        if max_retries ≤ rc then
          (some "", evs ++ [Event.logWarning])
        else
          let rest := profileLoop r user mt pt max_retries rc fuel
          (rest.1, evs ++ Event.logWarning :: Event.sleep 1 :: rest.2)
    else (none, [])

/-- `MemobaseManager.get_user_profile`: ensure connection (returning `""` if it
fails), then run the retry loop with `retry_count = 0`, `max_retries = 3`.
`none` would model the Python function implicitly returning `None`, which the
theorems show never happens. -/
def get_user_profile (r : Remote) (m : MemobaseManager) (max_tokens : Nat)
    (prefer_topics : Option (List String)) :
    Option String × MemobaseManager × List Event :=
  if m._connected then
    let (res, evs) := profileLoop r m.user max_tokens prefer_topics 3 0 3
    (res, m, evs)
  else
    match connect r m with
    | (false, m1, evs) => (some "", m1, evs)
    | (true, m1, evs) =>
      let (res, evs2) := profileLoop r m1.user max_tokens prefer_topics 3 0 3
      (res, m1, evs ++ evs2)

/-- The `try: await self.user.flush() ...` part of `flush_buffer`. -/
def flushStep (r : Remote) (m : MemobaseManager) : Bool × List Event :=
  match m.user with
  | none => (false, [Event.logError])
  | some u =>
    match r.flush u with
    | .ok _ => (true, [Event.flush, Event.logInfo])
    | .error _ => (false, [Event.flush, Event.logError])

/-- `MemobaseManager.flush_buffer`: ensure connection, then flush. -/
def flush_buffer (r : Remote) (m : MemobaseManager) :
    Bool × MemobaseManager × List Event :=
  if m._connected then
    let (ok, evs) := flushStep r m
    (ok, m, evs)
  else
    match connect r m with
    | (false, m1, evs) => (false, m1, evs)
    | (true, m1, evs) =>
      let (ok, evs2) := flushStep r m1
      (ok, m1, evs ++ evs2)

/-- `MemobaseManager.get_user_id`: pure accessor,
`self.user_id if self._connected else None`. -/
def get_user_id (m : MemobaseManager) : Option String :=
  if m._connected then m.user_id else none

/-- A round of `n` concurrent first-time callers: the connect lock (under
cooperative async scheduling) serializes them, so the round is `n` sequential
`connect` calls threading the shared manager state, collecting each caller's
result and the combined remote trace in lock-acquisition order. -/
def connectN (r : Remote) (m : MemobaseManager) :
    Nat → List Bool × MemobaseManager × List Event
  | 0 => ([], m, [])
  | n + 1 =>
    let (b, m1, evs) := connect r m
    let (bs, m2, evs2) := connectN r m1 n
    (b :: bs, m2, evs ++ evs2)

/-- Whether a modelled remote call raised. -/
def isErr {α : Type} : Except String α → Bool
  | .error _ => true
  | .ok _ => false

/-- A remote whose every call raises. -/
def allErr (r : Remote) : Prop :=
  isErr r.ping = true ∧
  (∀ id, isErr (r.get_user id) = true) ∧
  isErr r.add_user = true ∧
  (∀ u msgs, isErr (r.insert u msgs) = true) ∧
  (∀ u i mt pt, isErr (r.context u i mt pt) = true) ∧
  (∀ u, isErr (r.flush u) = true)

/-- The user-handle invariant: a connected manager holds a non-null handle. -/
def handleInv (m : MemobaseManager) : Prop :=
  m._connected = true → ∃ u, m.user = some u

/-- Concrete oracle where every remote call succeeds; `add_user` assigns `"u1"`
and `get_user` returns a handle named after the requested id. -/
def rGood : Remote :=
  { ping := .ok true
    get_user := fun i => .ok i
    add_user := .ok "u1"
    insert := fun _ _ => .ok ()
    context := fun _ _ _ _ => .ok "profile"
    flush := fun _ => .ok () }

/-- Concrete oracle where every remote call raises. -/
def rAllFail : Remote :=
  { ping := .error "boom"
    get_user := fun _ => .error "boom"
    add_user := .error "boom"
    insert := fun _ _ => .error "boom"
    context := fun _ _ _ _ => .error "boom"
    flush := fun _ => .error "boom" }

/-- Concrete oracle where `ping` returns `False` and everything else raises. -/
def rPingFalse : Remote :=
  { rAllFail with ping := .ok false }

/-- Concrete oracle for the fallback path: `get_user "old"` raises, all other
calls succeed, `add_user` assigns `"u1"`. -/
def rFallback : Remote :=
  { rGood with get_user := fun i => if i = "old" then .error "404" else .ok i }

/-- Concrete oracle for the broken fallback path: `ping` succeeds, `add_user`
assigns `"new"`, but every `get_user` raises. -/
def rCreateFail : Remote :=
  { rGood with get_user := fun _ => .error "404", add_user := .ok "new" }

/-- A fresh manager constructed without a user id. -/
def m0 : MemobaseManager := MemobaseManager.init none

/-- A fresh manager constructed with the supplied user id `"old"`. -/
def mOld : MemobaseManager := MemobaseManager.init (some "old")

/-- A manager that has successfully connected as user `"u1"`. -/
def mConn : MemobaseManager :=
  { user := some "u1", user_id := some "u1", _connected := true }

/-! ## Helper lemmas -/

/-- Case summary of `connect`: no-op on a connected manager; a `false` result
leaves the manager unconnected with its handle unchanged; a `true` result
leaves it connected; and a fresh successful connect stores a handle obtained
from a successful `get_user` of the stored identifier. -/
theorem connect_main (r : Remote) (m : MemobaseManager) :
    (m._connected = true → connect r m = (true, m, [])) ∧
    ((connect r m).1 = false →
      (connect r m).2.1._connected = false ∧ (connect r m).2.1.user = m.user) ∧
    ((connect r m).1 = true → (connect r m).2.1._connected = true) ∧
    (m._connected = false → (connect r m).1 = true →
      ∃ id u, (connect r m).2.1.user_id = some id ∧ (connect r m).2.1.user = some u ∧
        r.get_user id = Except.ok u) := by
  by_cases hc : m._connected
  · simp [connect, hc]
  · simp only [connect, connectLocked, hc, Bool.false_eq_true, if_false]
    rcases hp : r.ping with e | b
    · simp [hc]
    · cases b
      · simp [hc]
      · by_cases ht : truthyId m.user_id
        · cases hmu : m.user_id with
          | none => rw [hmu] at ht; simp [truthyId] at ht
          | some s =>
            rw [hmu] at ht
            simp only [ht, if_true, hmu, Option.getD_some]
            rcases hg : r.get_user s with e1 | u
            · rcases ha : r.add_user with e2 | nid
              · simp [hc, ht]
              · rcases hg2 : r.get_user nid with e3 | u2
                · simp [hc, ht, hg2]
                · simp [hc, ht, hg2]
            · simp [hc, ht, hg]
        · simp only [ht, Bool.false_eq_true, if_false]
          rcases ha : r.add_user with e2 | nid
          · simp [hc]
          · rcases hg2 : r.get_user nid with e3 | u2
            · simp [hc, hg2]
            · simp [hc, hg2]

/-- State evolution of `store_conversation`: on a connected manager the state
is untouched; otherwise it is exactly what `connect` left behind. -/
theorem store_conversation_state (r : Remote) (m : MemobaseManager)
    (umsg aresp aname : String) :
    (m._connected = true → (store_conversation r m umsg aresp aname).2.1 = m) ∧
    ((store_conversation r m umsg aresp aname).2.1 = m ∨
      (store_conversation r m umsg aresp aname).2.1 = (connect r m).2.1) := by
  by_cases hc : m._connected
  · simp [store_conversation, hc]
  · rcases hcn : connect r m with ⟨b, m1, evs⟩
    cases b <;> simp [store_conversation, hc, hcn]

/-- State evolution of `get_user_profile`: same shape as for
`store_conversation`. -/
theorem get_user_profile_state (r : Remote) (m : MemobaseManager) (mt : Nat)
    (pt : Option (List String)) :
    (m._connected = true → (get_user_profile r m mt pt).2.1 = m) ∧
    ((get_user_profile r m mt pt).2.1 = m ∨
      (get_user_profile r m mt pt).2.1 = (connect r m).2.1) := by
  by_cases hc : m._connected
  · simp [get_user_profile, hc]
  · rcases hcn : connect r m with ⟨b, m1, evs⟩
    cases b <;> simp [get_user_profile, hc, hcn]

/-- State evolution of `flush_buffer`: same shape as for
`store_conversation`. -/
theorem flush_buffer_state (r : Remote) (m : MemobaseManager) :
    (m._connected = true → (flush_buffer r m).2.1 = m) ∧
    ((flush_buffer r m).2.1 = m ∨ (flush_buffer r m).2.1 = (connect r m).2.1) := by
  by_cases hc : m._connected
  · simp [flush_buffer, hc]
  · rcases hcn : connect r m with ⟨b, m1, evs⟩
    cases b <;> simp [flush_buffer, hc, hcn]

/-- Retry loop when the remote `context` call raises on every attempt:
three attempts, a warning after each, a sleep after the first two failures
only, and the empty-string sentinel. -/
theorem profileLoop_allFail (r : Remote) (u : UserHandle) (mt : Nat)
    (pt : Option (List String))
    (h : ∀ i, isErr (r.context u i mt pt) = true) :
    profileLoop r (some u) mt pt 3 0 3 =
      (some "", [Event.contextCall mt, Event.logWarning, Event.sleep 1,
        Event.contextCall mt, Event.logWarning, Event.sleep 1,
        Event.contextCall mt, Event.logWarning]) := by
  rcases hE0 : r.context u 0 mt pt with e0 | s0
  · rcases hE1 : r.context u 1 mt pt with e1 | s1
    · rcases hE2 : r.context u 2 mt pt with e2 | s2
      · simp [profileLoop, tryContext, hE0, hE1, hE2]
      · have h2 := h 2; rw [hE2] at h2; simp [isErr] at h2
    · have h1 := h 1; rw [hE1] at h1; simp [isErr] at h1
  · have h0 := h 0; rw [hE0] at h0; simp [isErr] at h0

/-- Retry loop when the first attempt succeeds: one attempt, no warning, no
sleep. -/
theorem profileLoop_ok0 (r : Remote) (u : UserHandle) (mt : Nat)
    (pt : Option (List String)) (s : String)
    (h0 : r.context u 0 mt pt = Except.ok s) :
    profileLoop r (some u) mt pt 3 0 3 = (some s, [Event.contextCall mt]) := by
  simp [profileLoop, tryContext, h0]

/-- Retry loop when the second attempt succeeds: two attempts, one warning,
one sleep. -/
theorem profileLoop_ok1 (r : Remote) (u : UserHandle) (mt : Nat)
    (pt : Option (List String)) (s e0 : String)
    (h0 : r.context u 0 mt pt = Except.error e0)
    (h1 : r.context u 1 mt pt = Except.ok s) :
    profileLoop r (some u) mt pt 3 0 3 =
      (some s, [Event.contextCall mt, Event.logWarning, Event.sleep 1,
        Event.contextCall mt]) := by
  simp [profileLoop, tryContext, h0, h1]

/-- Retry loop when the third attempt succeeds: three attempts, two warnings,
two sleeps. -/
theorem profileLoop_ok2 (r : Remote) (u : UserHandle) (mt : Nat)
    (pt : Option (List String)) (s e0 e1 : String)
    (h0 : r.context u 0 mt pt = Except.error e0)
    (h1 : r.context u 1 mt pt = Except.error e1)
    (h2 : r.context u 2 mt pt = Except.ok s) :
    profileLoop r (some u) mt pt 3 0 3 =
      (some s, [Event.contextCall mt, Event.logWarning, Event.sleep 1,
        Event.contextCall mt, Event.logWarning, Event.sleep 1,
        Event.contextCall mt]) := by
  simp [profileLoop, tryContext, h0, h1, h2]

/-- On a null user handle every attempt raises before reaching the remote, so
the loop still warns three times and returns the sentinel. -/
theorem profileLoop_none_user (r : Remote) (mt : Nat) (pt : Option (List String)) :
    profileLoop r none mt pt 3 0 3 =
      (some "", [Event.logWarning, Event.sleep 1, Event.logWarning, Event.sleep 1,
        Event.logWarning]) := rfl

/-- The retry loop never falls off the end: the result is always `some`,
i.e. the Python function never implicitly returns `None`. -/
theorem profileLoop_isSome (r : Remote) (user : Option UserHandle) (mt : Nat)
    (pt : Option (List String)) :
    ∃ s, (profileLoop r user mt pt 3 0 3).1 = some s := by
  cases user with
  | none => exact ⟨"", by rw [profileLoop_none_user]⟩
  | some u =>
    rcases h0 : r.context u 0 mt pt with e0 | s0
    · rcases h1 : r.context u 1 mt pt with e1 | s1
      · rcases h2 : r.context u 2 mt pt with e2 | s2
        · exact ⟨"", by simp [profileLoop, tryContext, h0, h1, h2]⟩
        · exact ⟨s2, by simp [profileLoop, tryContext, h0, h1, h2]⟩
      · exact ⟨s1, by simp [profileLoop, tryContext, h0, h1]⟩
    · exact ⟨s0, by simp [profileLoop, tryContext, h0]⟩

/-! ## Claim theorems -/

/-- C4: on an unconnected manager whose remote `ping` returns false, `connect`
returns false and `store_conversation`, `get_user_profile`, `flush_buffer`
return their failure sentinels (`false`, `""`, `false`) without raising; every
trace is exactly `[ping, logError]`, so no `get_user`, `add_user`, `insert`,
`context` or `flush` call occurs. -/
theorem C4_ping_false_isolation (r : Remote) (m : MemobaseManager)
    (umsg aresp aname : String) (mt : Nat) (pt : Option (List String))
    (hc : m._connected = false) (hp : r.ping = Except.ok false) :
    connect r m = (false, m, [Event.ping, Event.logError]) ∧
    store_conversation r m umsg aresp aname =
      (false, m, [Event.ping, Event.logError]) ∧
    get_user_profile r m mt pt = (some "", m, [Event.ping, Event.logError]) ∧
    flush_buffer r m = (false, m, [Event.ping, Event.logError]) := by
  have hcn : connect r m = (false, m, [Event.ping, Event.logError]) := by
    simp [connect, connectLocked, hc, hp]
  refine ⟨hcn, ?_, ?_, ?_⟩ <;>
    simp [store_conversation, get_user_profile, flush_buffer, hc, hcn]

/-- C4 witness: the ping-false isolation at the concrete fresh manager and the
concrete oracle whose ping returns false. -/
theorem C4_witness :
    connect rPingFalse m0 = (false, m0, [Event.ping, Event.logError]) ∧
    store_conversation rPingFalse m0 "hi" "hello" "Assistant" =
      (false, m0, [Event.ping, Event.logError]) ∧
    get_user_profile rPingFalse m0 500 none =
      (some "", m0, [Event.ping, Event.logError]) ∧
    flush_buffer rPingFalse m0 = (false, m0, [Event.ping, Event.logError]) :=
  C4_ping_false_isolation rPingFalse m0 "hi" "hello" "Assistant" 500 none rfl rfl

/-- C5: `connect` is idempotent after first success: once a call returned
true the manager is connected, and a subsequent `connect` returns true with an
empty trace, i.e. without any remote call. -/
theorem C5_connect_idempotent (r : Remote) (m : MemobaseManager)
    (h : (connect r m).1 = true) :
    (connect r m).2.1._connected = true ∧
    connect r (connect r m).2.1 = (true, (connect r m).2.1, []) := by
  have h2 := (connect_main r m).2.2.1 h
  exact ⟨h2, (connect_main r (connect r m).2.1).1 h2⟩

/-- C5 witness: idempotence after the concrete successful first connect. -/
theorem C5_witness :
    (connect rGood m0).2.1._connected = true ∧
    connect rGood (connect rGood m0).2.1 = (true, (connect rGood m0).2.1, []) :=
  C5_connect_idempotent rGood m0 rfl

/-- C6: `get_user_id` is a pure accessor (it takes no remote oracle, so it can
make no remote call): it returns the stored identifier when the connected flag
is true and none otherwise; hence none after any failed connect and the
resolved identifier immediately after a successful one. -/
theorem C6_get_user_id_gating (r : Remote) (m : MemobaseManager) :
    (m._connected = true → get_user_id m = m.user_id) ∧
    (m._connected = false → get_user_id m = none) ∧
    ((connect r m).1 = false → get_user_id (connect r m).2.1 = none) ∧
    ((connect r m).1 = true →
      get_user_id (connect r m).2.1 = (connect r m).2.1.user_id) := by
  refine ⟨fun h => by simp [get_user_id, h], fun h => by simp [get_user_id, h],
    ?_, ?_⟩
  · intro h
    have hfc := ((connect_main r m).2.1 h).1
    simp [get_user_id, hfc]
  · intro h
    have htc := (connect_main r m).2.2.1 h
    simp [get_user_id, htc]

/-- C6 witness: the accessor gating at concrete managers, after a concrete
failed connect and after a concrete successful one. -/
theorem C6_witness :
    get_user_id mConn = mConn.user_id ∧
    get_user_id m0 = none ∧
    get_user_id (connect rPingFalse mOld).2.1 = none ∧
    get_user_id (connect rGood m0).2.1 = (connect rGood m0).2.1.user_id :=
  ⟨(C6_get_user_id_gating rGood mConn).1 rfl,
   (C6_get_user_id_gating rGood m0).2.1 rfl,
   (C6_get_user_id_gating rPingFalse mOld).2.2.1 rfl,
   (C6_get_user_id_gating rGood m0).2.2.2 rfl⟩

/-- C7: `store_conversation` on a connected manager submits via the user
handle exactly one two-entry exchange — a user turn (role `user`, content
`user_message`) followed by an assistant turn (role `assistant`, content
`assistant_response`, alias `assistant_name`) — and returns true when the
remote insert succeeds. -/
theorem C7_store_exchange (r : Remote) (m : MemobaseManager) (u : UserHandle)
    (umsg aresp aname : String) (hc : m._connected = true) (hu : m.user = some u)
    (hi : r.insert u (exchangeMessages umsg aresp aname) = Except.ok ()) :
    store_conversation r m umsg aresp aname =
      (true, m,
        [Event.insert (exchangeMessages umsg aresp aname), Event.logDebug]) ∧
    exchangeMessages umsg aresp aname =
      [{ role := "user", content := umsg, «alias» := none },
       { role := "assistant", content := aresp, «alias» := some aname }] := by
  constructor
  · simp [store_conversation, hc, insertStep, hu, hi]
  · rfl

/-- C7 witness: `store_conversation "hi" "hello" "Bot"` on the concrete
connected manager inserts a two-element exchange whose second element's alias
is `"Bot"`. -/
theorem C7_witness :
    store_conversation rGood mConn "hi" "hello" "Bot" =
      (true, mConn,
        [Event.insert (exchangeMessages "hi" "hello" "Bot"), Event.logDebug]) ∧
    (exchangeMessages "hi" "hello" "Bot").length = 2 ∧
    (exchangeMessages "hi" "hello" "Bot").getLast?.map Message.«alias» =
      some (some "Bot") :=
  ⟨(C7_store_exchange rGood mConn "u1" "hi" "hello" "Bot" rfl rfl rfl).1,
   rfl, rfl⟩

/-- C1: `get_user_profile` on a connected manager: when the remote `context`
call fails on every attempt it returns `""` after exactly 3 attempts, one
warning per failed attempt (3 warnings) and a 1 time-unit sleep between
consecutive attempts only (2 sleeps, none after the 3rd failure), never
raising; when an attempt succeeds its result is returned immediately with no
further attempts or sleeps. -/
theorem C1_profile_retry (r : Remote) (m : MemobaseManager) (u : UserHandle)
    (mt : Nat) (pt : Option (List String))
    (hc : m._connected = true) (hu : m.user = some u) :
    ((∀ i, isErr (r.context u i mt pt) = true) →
      get_user_profile r m mt pt =
        (some "", m, [Event.contextCall mt, Event.logWarning, Event.sleep 1,
          Event.contextCall mt, Event.logWarning, Event.sleep 1,
          Event.contextCall mt, Event.logWarning])) ∧
    (∀ s, r.context u 0 mt pt = Except.ok s →
      get_user_profile r m mt pt = (some s, m, [Event.contextCall mt])) ∧
    (∀ s e0, r.context u 0 mt pt = Except.error e0 →
      r.context u 1 mt pt = Except.ok s →
      get_user_profile r m mt pt =
        (some s, m, [Event.contextCall mt, Event.logWarning, Event.sleep 1,
          Event.contextCall mt])) ∧
    (∀ s e0 e1, r.context u 0 mt pt = Except.error e0 →
      r.context u 1 mt pt = Except.error e1 →
      r.context u 2 mt pt = Except.ok s →
      get_user_profile r m mt pt =
        (some s, m, [Event.contextCall mt, Event.logWarning, Event.sleep 1,
          Event.contextCall mt, Event.logWarning, Event.sleep 1,
          Event.contextCall mt])) := by
  have hg : ∀ (a : Option String) (b : List Event),
      profileLoop r m.user mt pt 3 0 3 = (a, b) →
      get_user_profile r m mt pt = (a, m, b) := by
    intro a b hres
    simp [get_user_profile, hc, hres]
  refine ⟨fun h => ?_, fun s h0 => ?_, fun s e0 h0 h1 => ?_,
    fun s e0 e1 h0 h1 h2 => ?_⟩
  · exact hg _ _ (by rw [hu]; exact profileLoop_allFail r u mt pt h)
  · exact hg _ _ (by rw [hu]; exact profileLoop_ok0 r u mt pt s h0)
  · exact hg _ _ (by rw [hu]; exact profileLoop_ok1 r u mt pt s e0 h0 h1)
  · exact hg _ _ (by rw [hu]; exact profileLoop_ok2 r u mt pt s e0 e1 h0 h1 h2)

/-- C1 witness: the retry bound at the concrete connected manager with the
always-raising oracle, and the immediate first-attempt success with the good
oracle. -/
theorem C1_witness :
    get_user_profile rAllFail mConn 500 none =
      (some "", mConn,
        [Event.contextCall 500, Event.logWarning, Event.sleep 1,
          Event.contextCall 500, Event.logWarning, Event.sleep 1,
          Event.contextCall 500, Event.logWarning]) ∧
    get_user_profile rGood mConn 500 none =
      (some "profile", mConn, [Event.contextCall 500]) :=
  ⟨(C1_profile_retry rAllFail mConn "u1" 500 none rfl rfl).1 (fun _ => rfl),
   (C1_profile_retry rGood mConn "u1" 500 none rfl rfl).2.1 "profile" rfl⟩

/-- C2: fallback correctness: on an unconnected manager with a supplied
(non-empty) identifier, when ping succeeds, `get_user` of that identifier
raises, `add_user` returns a new id and `get_user` of the new id succeeds,
`connect` returns true, the stored identifier is updated to the new id, and
the trace contains exactly one `add_user` call followed by the fetch of the
new id. -/
theorem C2_fallback (r : Remote) (m : MemobaseManager) (uid nid e1 : String)
    (u : UserHandle)
    (hc : m._connected = false) (hid : m.user_id = some uid) (hne : uid ≠ "")
    (hp : r.ping = Except.ok true) (hg : r.get_user uid = Except.error e1)
    (ha : r.add_user = Except.ok nid) (hg2 : r.get_user nid = Except.ok u) :
    connect r m =
      (true, { m with user_id := some nid, user := some u, _connected := true },
        [Event.ping, Event.get_user uid, Event.logWarning, Event.add_user,
          Event.get_user nid, Event.logInfo]) ∧
    (connect r m).2.2.count Event.add_user = 1 := by
  have ht : truthyId (some uid) = true := by simp [truthyId, hne]
  have hcn : connect r m =
      (true, { m with user_id := some nid, user := some u, _connected := true },
        [Event.ping, Event.get_user uid, Event.logWarning, Event.add_user,
          Event.get_user nid, Event.logInfo]) := by
    simp [connect, connectLocked, hc, hp, ht, hid, hg, ha, hg2]
  refine ⟨hcn, ?_⟩
  rw [hcn]
  simp [List.count_cons]

/-- C2 witness: the fallback at the concrete manager supplied with `"old"`
and the oracle that rejects `"old"` and assigns `"u1"`. -/
theorem C2_witness :
    connect rFallback mOld =
      (true, { user := some "u1", user_id := some "u1", _connected := true },
        [Event.ping, Event.get_user "old", Event.logWarning, Event.add_user,
          Event.get_user "u1", Event.logInfo]) ∧
    (connect rFallback mOld).2.2.count Event.add_user = 1 :=
  C2_fallback rFallback mOld "old" "u1" "404" "u1"
    rfl rfl (by decide) rfl rfl rfl rfl

/-- C3: operations never propagate an exception: they are total and their
only failure signals are the sentinels.  A false `connect` always leaves the
connected flag false; `get_user_profile` always returns an actual string
(never the `None` of falling off the retry loop); and against a remote whose
every call raises, all operations return their sentinel (`false` / `""`). -/
theorem C3_no_propagation (r : Remote) (m : MemobaseManager)
    (umsg aresp aname : String) (mt : Nat) (pt : Option (List String)) :
    ((connect r m).1 = false → (connect r m).2.1._connected = false) ∧
    (∃ s, (get_user_profile r m mt pt).1 = some s) ∧
    (allErr r →
      (store_conversation r m umsg aresp aname).1 = false ∧
      (get_user_profile r m mt pt).1 = some "" ∧
      (flush_buffer r m).1 = false ∧
      (m._connected = false → (connect r m).1 = false)) := by
  refine ⟨fun h => ((connect_main r m).2.1 h).1, ?_, ?_⟩
  · by_cases hc : m._connected
    · obtain ⟨s, hs⟩ := profileLoop_isSome r m.user mt pt
      rcases hl : profileLoop r m.user mt pt 3 0 3 with ⟨a, b⟩
      rw [hl] at hs; simp at hs
      exact ⟨s, by simp [get_user_profile, hc, hl, hs]⟩
    · rcases hcn : connect r m with ⟨b, m1, evs⟩
      cases b
      · exact ⟨"", by simp [get_user_profile, hc, hcn]⟩
      · obtain ⟨s, hs⟩ := profileLoop_isSome r m1.user mt pt
        rcases hl : profileLoop r m1.user mt pt 3 0 3 with ⟨a, bb⟩
        rw [hl] at hs; simp at hs
        exact ⟨s, by simp [get_user_profile, hc, hcn, hl, hs]⟩
  · rintro ⟨hping, hgu, hau, hins, hctx, hfl⟩
    obtain ⟨ep, hpe⟩ : ∃ e, r.ping = Except.error e := by
      rcases hpg : r.ping with e | b
      · exact ⟨e, rfl⟩
      · rw [hpg] at hping; simp [isErr] at hping
    have hcf : ∀ hcc : m._connected = false,
        connect r m = (false, m, [Event.ping, Event.logError]) := by
      intro hcc; simp [connect, connectLocked, hcc, hpe]
    refine ⟨?_, ?_, ?_, fun hcc => by simp [hcf hcc]⟩
    · by_cases hc : m._connected
      · cases hmu : m.user with
        | none => simp [store_conversation, hc, insertStep, hmu]
        | some u =>
          obtain ⟨ei, hie⟩ :
              ∃ e, r.insert u (exchangeMessages umsg aresp aname) =
                Except.error e := by
            rcases hx : r.insert u (exchangeMessages umsg aresp aname) with e | v
            · exact ⟨e, rfl⟩
            · have hq := hins u (exchangeMessages umsg aresp aname)
              rw [hx] at hq; simp [isErr] at hq
          simp [store_conversation, hc, insertStep, hmu, hie]
      · simp only [Bool.not_eq_true] at hc
        simp [store_conversation, hc, hcf hc]
    · by_cases hc : m._connected
      · cases hmu : m.user with
        | none => simp [get_user_profile, hc, hmu, profileLoop_none_user]
        | some u =>
          have hall := profileLoop_allFail r u mt pt (fun i => hctx u i mt pt)
          simp [get_user_profile, hc, hmu, hall]
      · simp only [Bool.not_eq_true] at hc
        simp [get_user_profile, hc, hcf hc]
    · by_cases hc : m._connected
      · cases hmu : m.user with
        | none => simp [flush_buffer, hc, flushStep, hmu]
        | some u =>
          obtain ⟨ef, hfe⟩ : ∃ e, r.flush u = Except.error e := by
            rcases hx : r.flush u with e | v
            · exact ⟨e, rfl⟩
            · have hq := hfl u; rw [hx] at hq; simp [isErr] at hq
          simp [flush_buffer, hc, flushStep, hmu, hfe]
      · simp only [Bool.not_eq_true] at hc
        simp [flush_buffer, hc, hcf hc]

/-- C3 witness: the sentinel contract at the concrete fresh manager and the
concrete oracle whose every call raises. -/
theorem C3_witness :
    (store_conversation rAllFail m0 "hi" "hello" "Assistant").1 = false ∧
    (get_user_profile rAllFail m0 500 none).1 = some "" ∧
    (flush_buffer rAllFail m0).1 = false ∧
    (connect rAllFail m0).1 = false ∧
    (connect rAllFail m0).2.1._connected = false :=
  have h := (C3_no_propagation rAllFail m0 "hi" "hello" "Assistant" 500 none).2.2
    ⟨rfl, fun _ => rfl, rfl, fun _ _ => rfl, fun _ _ _ _ => rfl, fun _ => rfl⟩
  ⟨h.1, h.2.1, h.2.2.1, h.2.2.2 rfl,
    (C3_no_propagation rAllFail m0 "hi" "hello" "Assistant" 500 none).1
      (h.2.2.2 rfl)⟩

/-- C8: the handle invariant (connected implies non-null user handle) holds of
a freshly initialized manager and is preserved by every operation; on an
already-connected manager no operation changes the state at all — so neither
the handle nor the flag is ever reset for the manager's lifetime; and the flag
first becomes true only together with a handle assigned from a successful
`get_user` of the stored identifier. -/
theorem C8_handle_invariant (r : Remote) (m : MemobaseManager)
    (uid : Option String) (umsg aresp aname : String) (mt : Nat)
    (pt : Option (List String)) (hInv : handleInv m) :
    handleInv (MemobaseManager.init uid) ∧
    handleInv (connect r m).2.1 ∧
    handleInv (store_conversation r m umsg aresp aname).2.1 ∧
    handleInv (get_user_profile r m mt pt).2.1 ∧
    handleInv (flush_buffer r m).2.1 ∧
    (m._connected = true →
      (connect r m).2.1 = m ∧
      (store_conversation r m umsg aresp aname).2.1 = m ∧
      (get_user_profile r m mt pt).2.1 = m ∧
      (flush_buffer r m).2.1 = m) ∧
    (m._connected = false → (connect r m).1 = true →
      ∃ id u, (connect r m).2.1.user_id = some id ∧
        (connect r m).2.1.user = some u ∧ r.get_user id = Except.ok u) := by
  have hci : handleInv (connect r m).2.1 := by
    by_cases hb : (connect r m).1 = true
    · by_cases hc : m._connected
      · rw [(connect_main r m).1 hc]; exact hInv
      · simp only [Bool.not_eq_true] at hc
        obtain ⟨id, u, _, hu, _⟩ := (connect_main r m).2.2.2 hc hb
        exact fun _ => ⟨u, hu⟩
    · simp only [Bool.not_eq_true] at hb
      have hf := ((connect_main r m).2.1 hb).1
      intro hcc
      rw [hf] at hcc
      exact absurd hcc (by decide)
  have hpres : ∀ m' : MemobaseManager,
      m' = m ∨ m' = (connect r m).2.1 → handleInv m' := by
    rintro m' (h | h) <;> rw [h]
    · exact hInv
    · exact hci
  refine ⟨?_, hci, hpres _ (store_conversation_state r m umsg aresp aname).2,
    hpres _ (get_user_profile_state r m mt pt).2,
    hpres _ (flush_buffer_state r m).2, fun hc => ?_, (connect_main r m).2.2.2⟩
  · intro h
    simp [MemobaseManager.init] at h
  · exact ⟨by rw [(connect_main r m).1 hc],
      (store_conversation_state r m umsg aresp aname).1 hc,
      (get_user_profile_state r m mt pt).1 hc,
      (flush_buffer_state r m).1 hc⟩

/-- C8 witness: the invariant facts at concrete managers — a fresh manager,
a successful fresh connect, and operations on an already-connected manager
against the always-raising oracle. -/
theorem C8_witness :
    handleInv (connect rGood m0).2.1 ∧
    (connect rGood mConn).2.1 = mConn ∧
    (store_conversation rAllFail mConn "a" "b" "c").2.1 = mConn ∧
    (get_user_profile rAllFail mConn 500 none).2.1 = mConn ∧
    (flush_buffer rAllFail mConn).2.1 = mConn ∧
    (∃ id u, (connect rGood m0).2.1.user_id = some id ∧
      (connect rGood m0).2.1.user = some u ∧ rGood.get_user id = Except.ok u) :=
  have h1 := C8_handle_invariant rGood m0 none "a" "b" "c" 500 none
    (fun h => absurd h (by decide))
  have h2 := C8_handle_invariant rAllFail mConn none "a" "b" "c" 500 none
    (fun _ => ⟨"u1", rfl⟩)
  have h3 := C8_handle_invariant rGood mConn none "a" "b" "c" 500 none
    (fun _ => ⟨"u1", rfl⟩)
  ⟨h1.2.1, (h3.2.2.2.2.2.1 rfl).1, (h2.2.2.2.2.2.1 rfl).2.1,
    (h2.2.2.2.2.2.1 rfl).2.2.1, (h2.2.2.2.2.2.1 rfl).2.2.2,
    h1.2.2.2.2.2.2 rfl rfl⟩

/-- C9 counterexample: two concurrent first-time callers, serialized by the
connect lock, against a remote whose ping returns false: the round performs
two pings, not exactly one — on failure each waiting caller re-runs the
connect sequence instead of merely observing the first caller's failure. -/
theorem C9_counterexample :
    (connectN rPingFalse m0 2).2.2 =
      [Event.ping, Event.logError, Event.ping, Event.logError] ∧
    ¬ (connectN rPingFalse m0 2).2.2.count Event.ping = 1 := by
  have h2 : (connectN rPingFalse m0 2).2.2.count Event.ping = 2 := rfl
  refine ⟨rfl, fun h => ?_⟩
  rw [h2] at h
  exact absurd h (by decide)

/-- C9 (amended): with callers serialized by the connect lock, if the first
caller's connect succeeds then a round of `n + 1` callers performs exactly the
first caller's connect sequence — every other caller returns true with no
further remote calls; but when ping reports failure on an unconnected
manager, every caller in the round re-runs the sequence (one ping and one
error log each) rather than observing the first failure. -/
theorem C9_single_flight (r : Remote) (m : MemobaseManager) (n : Nat) :
    ((connect r m).1 = true →
      connectN r m (n + 1) =
        (List.replicate (n + 1) true, (connect r m).2.1, (connect r m).2.2)) ∧
    (r.ping = Except.ok false → m._connected = false →
      connectN r m n =
        (List.replicate n false, m,
          List.flatten (List.replicate n [Event.ping, Event.logError]))) := by
  constructor
  · intro h
    have hc2 := (connect_main r m).2.2.1 h
    have hrep : ∀ (k : Nat) (mm : MemobaseManager), mm._connected = true →
        connectN r mm k = (List.replicate k true, mm, []) := by
      intro k
      induction k with
      | zero => intro mm _; simp [connectN]
      | succ j ih =>
        intro mm hmm
        have hcm := (connect_main r mm).1 hmm
        simp [connectN, hcm, ih mm hmm, List.replicate_succ]
    rcases hcn : connect r m with ⟨b, m1, evs⟩
    rw [hcn] at h hc2
    simp at h hc2
    subst h
    simp [connectN, hcn, hrep n m1 hc2, List.replicate_succ]
  · intro hp hc
    induction n with
    | zero => simp [connectN]
    | succ j ih =>
      have hcn : connect r m = (false, m, [Event.ping, Event.logError]) := by
        simp [connect, connectLocked, hc, hp]
      simp [connectN, hcn, ih, List.replicate_succ]

/-- C9 witness: the single-flight success round and the repeated-ping failure
round at concrete oracles and the concrete fresh manager. -/
theorem C9_witness :
    connectN rGood m0 2 =
      (List.replicate 2 true, (connect rGood m0).2.1, (connect rGood m0).2.2) ∧
    connectN rPingFalse m0 3 =
      (List.replicate 3 false, m0,
        List.flatten (List.replicate 3 [Event.ping, Event.logError])) :=
  ⟨(C9_single_flight rGood m0 1).1 rfl,
   (C9_single_flight rPingFalse m0 3).2 rfl rfl⟩

/-- C10: when the fallback path's `add_user` succeeds but fetching the new id
raises, `connect` returns false and the connected flag stays false, yet the
stored identifier has already been overwritten with the newly created one;
`get_user_id` still returns none, and a later `connect` whose ping succeeds
starts by fetching the new identifier rather than the originally supplied
one. -/
theorem C10_partial_fallback (r r2 : Remote) (m : MemobaseManager)
    (uid nid e1 e2 : String)
    (hc : m._connected = false) (hid : m.user_id = some uid) (hne : uid ≠ "")
    (hp : r.ping = Except.ok true) (hg : r.get_user uid = Except.error e1)
    (ha : r.add_user = Except.ok nid) (hg2 : r.get_user nid = Except.error e2)
    (hnid : nid ≠ "") (hp2 : r2.ping = Except.ok true) :
    connect r m =
      (false, { m with user_id := some nid },
        [Event.ping, Event.get_user uid, Event.logWarning, Event.add_user,
          Event.get_user nid, Event.logError]) ∧
    get_user_id (connect r m).2.1 = none ∧
    (∃ rest, (connect r2 (connect r m).2.1).2.2 =
      Event.ping :: Event.get_user nid :: rest) := by
  have ht : truthyId (some uid) = true := by simp [truthyId, hne]
  have hcn : connect r m =
      (false, { m with user_id := some nid },
        [Event.ping, Event.get_user uid, Event.logWarning, Event.add_user,
          Event.get_user nid, Event.logError]) := by
    simp [connect, connectLocked, hc, hp, ht, hid, hg, ha, hg2]
  have ht2 : truthyId (some nid) = true := by simp [truthyId, hnid]
  refine ⟨hcn, by simp [hcn, get_user_id, hc], ?_⟩
  rw [hcn]
  rcases hga : r2.get_user nid with e3 | u1
  · rcases haa : r2.add_user with e4 | nid2
    · exact ⟨[Event.logWarning, Event.add_user, Event.logError],
        by simp [connect, connectLocked, hc, hp2, ht2, hga, haa]⟩
    · rcases hgb : r2.get_user nid2 with e5 | u2
      · exact ⟨[Event.logWarning, Event.add_user, Event.get_user nid2,
          Event.logError],
          by simp [connect, connectLocked, hc, hp2, ht2, hga, haa, hgb]⟩
      · exact ⟨[Event.logWarning, Event.add_user, Event.get_user nid2,
          Event.logInfo],
          by simp [connect, connectLocked, hc, hp2, ht2, hga, haa, hgb]⟩
  · exact ⟨[Event.logInfo],
      by simp [connect, connectLocked, hc, hp2, ht2, hga]⟩

/-- C10 witness: the broken fallback at the concrete manager supplied with
`"old"` and the oracle whose `add_user` assigns `"new"` but whose every
`get_user` raises, followed by a later connect against the good oracle. -/
theorem C10_witness :
    connect rCreateFail mOld =
      (false, { user := none, user_id := some "new", _connected := false },
        [Event.ping, Event.get_user "old", Event.logWarning, Event.add_user,
          Event.get_user "new", Event.logError]) ∧
    get_user_id (connect rCreateFail mOld).2.1 = none ∧
    (∃ rest, (connect rGood (connect rCreateFail mOld).2.1).2.2 =
      Event.ping :: Event.get_user "new" :: rest) :=
  C10_partial_fallback rCreateFail rGood mOld "old" "new" "404" "404"
    rfl rfl (by decide) rfl rfl rfl rfl (by decide) rfl

end Memobase
